import Mathlib

/-!
Verification of the framework-redis.py access layer against its specification.
Each Python construct relevant to the claims is shallowly embedded as an
executable Lean definition translated from the source under
`asyncframework/db/redis/`; theorems about those definitions settle the claims.
-/

/-! ## Key/Value descriptor base (`_base.py`, `RedisRecordFieldBase`) -/

/-- Model of `RedisRecordFieldBase` (`_base.py` lines 17-32): a key
descriptor holding an optional key prefix and an optional expiry.
`pfx` models the Python attribute `prefix` (`None` ↦ `none`). -/
structure RecordFieldBase where
  pfx : Option String
  expire : Option Int
deriving DecidableEq, Repr

/-- Python truthiness of the optional string `self.prefix`: `None` and the
empty string are falsy. -/
def pfxTruthy : Option String → Bool
  | none => false
  | some p => p ≠ ""

/-- Model of `RedisRecordFieldBase.full_key` (`_base.py` line 43):
`''.join((self.prefix, key)) if self.prefix else key`. -/
def full_key (f : RecordFieldBase) (key : String) : String :=
  match f.pfx with
  | some p => if p = "" then key else p ++ key
  | none => key

/-- Model of `RedisRecordFieldBase.full_keys` (`_base.py` lines 45-55): the
generator yields `full_key` of each input key in order; we model the sequence
of yielded values as a list. -/
def full_keys (f : RecordFieldBase) (keys : List String) : List String :=
  keys.map (full_key f)

/-! ## Script registry and executor (`script.py`, `script_field.py`) -/

/-- Errors surfaced by the redis client during script execution.
`noScript` models `redis.exceptions.NoScriptError`; `other` models any
other exception class. -/
inductive RedisErr where
  | noScript
  | other (msg : String)
deriving DecidableEq, Repr

/-- Commands issued to the connection by `RedisScript.__call__`
(`script.py` lines 110-113): `evalsha(sha, numkeys, *keys_args)` and
`eval(code, numkeys, *keys_args)`. -/
inductive SCmd where
  | evalsha (sha : String) (numkeys : Nat) (params : List String)
  | evalSrc (code : String) (numkeys : Nat) (params : List String)
deriving DecidableEq, Repr

/-- Model of the data held by `_RedisScriptField` (`script.py` lines 42-61):
the script text and its content digest. -/
structure ScriptFieldM where
  code : String
  code_sha1 : String
deriving DecidableEq, Repr

/-- Model of `RedisScript.__call__` (`script.py` lines 93-114).  The store's
responses to the two possible commands are supplied as oracles `shaResp`
(response to `evalsha`) and `srcResp` (response to `eval`); the function
returns the call's overall result together with the trace of commands it
issued, in order.  Faithful to the source: `keys_num = len(keys)`,
`keys_args = tuple(keys) + tuple(args)`, `evalsha` is tried first and
`eval` runs only when `NoScriptError` is caught; any other outcome of
`evalsha` (success or another error) is returned as is. -/
def scriptCall {α : Type} (sf : ScriptFieldM) (keys args : List String)
    (shaResp srcResp : Except RedisErr α) : Except RedisErr α × List SCmd :=
  let keys_num := keys.length
  let keys_args := keys ++ args
  match shaResp with
  | Except.error RedisErr.noScript =>
      (srcResp, [SCmd.evalsha sf.code_sha1 keys_num keys_args,
                 SCmd.evalSrc sf.code keys_num keys_args])
  | r => (r, [SCmd.evalsha sf.code_sha1 keys_num keys_args])

/-- Model of a `RedisScriptData` class as seen through attribute access:
`code` is the script text; `sha1Attr` is `some d` when the class carries a
`code_sha1` attribute with value `d`, and `none` when the attribute is
absent (so that reading it raises `AttributeError`). -/
structure ScriptDataM where
  code : String
  sha1Attr : Option String
deriving DecidableEq, Repr

/-- Model of `ScriptDataMeta.__new__` (`script.py` lines 11-15 and
`script_field.py` lines 10-14) applied to a class body declaring `code`:
the metaclass stores `sha1(code)` in the namespace as `code_sha1`.  The
hash function (hashlib's SHA-1, an external collaborator) is passed as an
opaque parameter `hash`. -/
def scriptDataMetaNew (hash : String → String) (code : String) : ScriptDataM :=
  { code := code, sha1Attr := some (hash code) }

/-- Model of `RedisScriptData.from_data` in `script.py` (lines 25-39):
builds an instance and sets `code` and `code_sha1 = sha1(script_data)` on
it. -/
def from_data_script (hash : String → String) (script_data : String) : ScriptDataM :=
  { code := script_data, sha1Attr := some (hash script_data) }

/-- Model of `RedisScriptData.from_data` in `script_field.py` (lines 24-36):
`type(cls.__name__, cls.__bases__, {'code': script_data})`.  Because
`cls.__bases__` is `(object,)` and plain `type` is the metaclass used, the
`ScriptDataMeta` hook never runs, so the produced class has no `code_sha1`
attribute at all (and is not a `RedisScriptData` subclass). -/
def from_data_script_field (script_data : String) : ScriptDataM :=
  { code := script_data, sha1Attr := none }

/-- Model of `_RedisScriptField.__init__` on a file path (`script.py` lines
63-77): the file content is read and, when non-empty, `from_data` builds the
script data; an empty file leaves `_script_data` unset (`none`). -/
def scriptFieldOfPath (hash : String → String) (content : String) : Option ScriptDataM :=
  if content = "" then none else some (from_data_script hash content)

/-! ## Record collection (`record.py`, `RedisRecord.store`) -/

/-- The `key` argument of `RedisRecord.store` (`record.py` line 75): either a
single key string or a list/tuple of key strings. -/
inductive KeyArg where
  | one (k : String)
  | many (ks : List String)
deriving DecidableEq, Repr

/-- The `data` argument of `RedisRecord.store`: either a single value or a
list/tuple/set of values. -/
inductive DataArg (α : Type) where
  | one (d : α)
  | many (ds : List α)
deriving DecidableEq, Repr

/-- A value written by `connection.set`: the dumped raw value, which in the
single-key/many-data branch of `store` is the list of dumps. -/
inductive WVal (β : Type) where
  | single (b : β)
  | listOf (bs : List β)
deriving DecidableEq, Repr

/-- One `connection.set(k, v, ex=..., nx=..., xx=...)` command issued by
`RedisRecord.store` (`record.py` lines 108-109). -/
structure WriteCmd (β : Type) where
  key : String
  val : WVal β
  ex : Option Int
  nx : Option Bool
deriving DecidableEq, Repr

/-- The error raised by `RedisRecord.store` on a key/data length mismatch
(`record.py` line 92, an `AttributeError`); both lengths are carried as
data. -/
inductive StoreErr where
  | lengthMismatch (klen dlen : Nat)
deriving DecidableEq, Repr

/-- Model of `RedisRecord.store` (`record.py` lines 75-109).  The codec's
`dump` is passed as an opaque function.  The result is the ordered list of
`connection.set` commands the call issues; `Except.error` models the
`AttributeError` raised before the write loop runs, so no command is
issued. -/
def recordStore {α β : Type} (f : RecordFieldBase) (dump : α → β)
    (key : KeyArg) (data : DataArg α) (upsert : Bool) :
    Except StoreErr (List (WriteCmd β)) :=
  let nx : Option Bool := if upsert then none else some true
  match key, data with
  | KeyArg.many ks, DataArg.many ds =>
      if ds.length = ks.length then
        Except.ok (((full_keys f ks).zip (ds.map dump)).map
          (fun p => ⟨p.1, WVal.single p.2, f.expire, nx⟩))
      else
        Except.error (StoreErr.lengthMismatch ks.length ds.length)
  | KeyArg.many ks, DataArg.one d =>
      Except.ok ((full_keys f ks).map (fun k => ⟨k, WVal.single (dump d), f.expire, nx⟩))
  | KeyArg.one k, DataArg.many ds =>
      Except.ok [⟨full_key f k, WVal.listOf (ds.map dump), f.expire, nx⟩]
  | KeyArg.one k, DataArg.one d =>
      Except.ok [⟨full_key f k, WVal.single (dump d), f.expire, nx⟩]

/-! ## Shard router (`database.py`, `RedisDb.__getitem__`) -/

/-- Model of a started `RedisDb`: whether it was configured sharded, the
number of bound shard items (`len(self.__items)`), and the process-fixed
hash function Python's `hash` provides for non-integer keys. -/
structure RedisDbRouter (κ : Type) where
  sharded : Bool
  nItems : Nat
  hashF : κ → Int

/-- The key passed to `RedisDb.__getitem__`: an integer, or a non-integer
hashable key. -/
inductive DbKeyArg (κ : Type) where
  | intKey (i : Int)
  | hashKey (k : κ)

/-- Failures of `RedisDb.__getitem__`: `usage` models the
`AttributeError('Not sharded DB')` raised on an unsharded database
(`database.py` line 115) and `assertFail` models the failure of the
`assert 0 <= shard_id < len(self.__items)` guard (line 121). -/
inductive DbErr where
  | usage
  | assertFail
deriving DecidableEq, Repr

/-- Model of `RedisDb.__getitem__` (`database.py` lines 113-122): an integer
key is used directly as the shard index; any other (hashable) key is hashed
modulo the item count (Python's `%` on a positive modulus, i.e. `Int.emod`);
the index must pass the range assertion. -/
def dbGetItem {κ : Type} (db : RedisDbRouter κ) (key : DbKeyArg κ) : Except DbErr Nat :=
  if db.sharded = false then Except.error DbErr.usage
  else
    let shard_id : Int :=
      match key with
      | DbKeyArg.intKey i => i
      | DbKeyArg.hashKey k => db.hashF k % (db.nItems : Int)
    if 0 ≤ shard_id ∧ shard_id < (db.nItems : Int) then Except.ok shard_id.toNat
    else Except.error DbErr.assertFail

/-! ## Distributed lock (`lock.py`) -/

/-- Model of the store state a single lock touches: the lock key's value
(`none` = unset/FREE, `some id` = HELD by `id`) and the contents of the
signal list key. -/
structure LockStore where
  lockVal : Option String
  signal : List Nat
deriving DecidableEq, Repr

/-- Model of the atomic `SET key id NX EX expire` command issued by
`RedisLock.RealLock.acquire` (`lock.py` line 152): returns the new key value
and whether the set succeeded (it succeeds exactly when the key was
unset). -/
def setNX (st : Option String) (id : String) : Option String × Bool :=
  match st with
  | none => (some id, true)
  | some v => (some v, false)

/-- Events affecting one lock key: an acquire attempt's atomic `SET NX` step
by a holder, an explicit release deleting the key (the `UnlockScript` owner
branch), and lease expiry dropping the key.  These are the only writers of
the lock key in `lock.py`. -/
inductive LockEv where
  | acq (id : String)
  | rel
  | exp
deriving DecidableEq, Repr

/-- State transition of the lock key under one event. -/
def applyEv (st : Option String) (e : LockEv) : Option String :=
  match e with
  | LockEv.acq id => (setNX st id).1
  | LockEv.rel => none
  | LockEv.exp => none

/-- Run a list of events over the lock key. -/
def runEv (st : Option String) (evs : List LockEv) : Option String :=
  match evs with
  | [] => st
  | e :: es => runEv (applyEv st e) es

/-- The success observations delivered to the acquire attempts in a list of
events, in order: each `acq` event observes the boolean result of its own
atomic `SET NX` step (`true` = acquire reports success, `false` = busy). -/
def obsEv (st : Option String) (evs : List LockEv) : List Bool :=
  match evs with
  | [] => []
  | LockEv.acq id :: es => (setNX st id).2 :: obsEv (applyEv st (LockEv.acq id)) es
  | e :: es => obsEv (applyEv st e) es

/-- Model of `UnlockScript` (`lock.py` lines 35-45), executed atomically:
if the lock key's value differs from the caller's holder id (including the
unset case, where redis `get` returns nil) the script returns `1` and leaves
the store untouched; otherwise it deletes the signal key, pushes `1` onto
it, deletes the lock key and returns `0`. -/
def unlock_script (st : LockStore) (id : String) : LockStore × Int :=
  if st.lockVal ≠ some id then (st, 1)
  else ({ lockVal := none, signal := [1] }, 0)

/-- Model of `RealLock._delete_signal` (`lock.py` lines 192-193). -/
def delete_signal (st : LockStore) : LockStore :=
  { st with signal := [] }

/-- Errors raised by `RealLock.release` (`lock.py` lines 184-188):
`notAcquired` models `RedisLockError('Lock ... is not acquired')` on script
result `1`; `unsupportedCode` models the branch for any other non-zero
result. -/
inductive RelErr where
  | notAcquired
  | unsupportedCode (c : Int)
deriving DecidableEq, Repr

/-- Model of `RealLock.release` (`lock.py` lines 173-190): when the handle
has timed out only the signal key is deleted; otherwise `UnlockScript` runs
and its result selects raising `RedisLockError` (result `1`), raising on an
unsupported code, or deleting the signal on success. -/
def lockRelease (timedOut : Bool) (id : String) (st : LockStore) :
    LockStore × Except RelErr Unit :=
  if timedOut then (delete_signal st, Except.ok ())
  else
    let r := unlock_script st id
    if r.2 = 1 then (r.1, Except.error RelErr.notAcquired)
    else if r.2 ≠ 0 then (r.1, Except.error (RelErr.unsupportedCode r.2))
    else (delete_signal r.1, Except.ok ())

/-- Commands `RealLock.acquire` issues against the store, in order: the
`get` of the owner pre-check (via `is_owner`/`get_owner_id`), the atomic
`SET NX`, and the `blpop` wait on the signal key. -/
inductive LockCmd where
  | getK
  | setnxK (id : String)
  | blpopK
deriving DecidableEq, Repr

/-- Errors raised by `RealLock.acquire` (`lock.py` lines 136-160):
`alreadyAcquired` models `RedisLockError('Already acquired from this Lock
instance.')`, `invalidTimeout` the three `RedisLockInvalidTimeoutError`
cases, `lockBusy` the non-blocking `RedisLockError('Failed to get ...')`. -/
inductive AcqErr where
  | alreadyAcquired
  | invalidTimeout
  | lockBusy
deriving DecidableEq, Repr

/-- The timeout validation of `RealLock.acquire` (`lock.py` lines 139-146),
run after the owner pre-check: blocking=False with a timeout, timeout ≤ 0,
and a truthy timeout greater than a truthy expire all raise
`RedisLockInvalidTimeoutError`. -/
def validateTimeout (blocking : Bool) (timeout : Option Int) (expire : Int) :
    Option AcqErr :=
  match blocking, timeout with
  | false, some _ => some AcqErr.invalidTimeout
  | _, none => none
  | true, some t =>
      if t ≤ 0 then some AcqErr.invalidTimeout
      else if t ≠ 0 ∧ expire ≠ 0 ∧ expire < t then some AcqErr.invalidTimeout
      else none

/-- Model of one pass of `RealLock.acquire` (`lock.py` lines 134-165)
against a snapshot `st` of the lock key: the `is_owner` pre-check (a `get`
of the key, raising when the key stores this handle's own id), then the
timeout validation, then one atomic `SET NX` attempt.  `Except.ok true`
models `return True` after a successful set; `Except.ok false` models a
busy blocking iteration that proceeds to `blpop` and loops again.  The
second component is the trace of commands issued. -/
def acquireStep (id : String) (expire : Int) (blocking : Bool)
    (timeout : Option Int) (st : Option String) :
    Except AcqErr Bool × List LockCmd :=
  if st = some id then (Except.error AcqErr.alreadyAcquired, [LockCmd.getK])
  else
    match validateTimeout blocking timeout expire with
    | some e => (Except.error e, [LockCmd.getK])
    | none =>
        let r := setNX st id
        if r.2 then (Except.ok true, [LockCmd.getK, LockCmd.setnxK id])
        else if blocking then
          (Except.ok false, [LockCmd.getK, LockCmd.setnxK id, LockCmd.blpopK])
        else (Except.error AcqErr.lockBusy, [LockCmd.getK, LockCmd.setnxK id])

/-! ## Descriptor cloning (`lock_field.py`, `record.py`, `set.py`,
`sorted_set_field.py`, `script.py`, `set_field.py`) -/

/-- Model of `RedisLockField` / `_RedisLockField` (`lock_field.py` lines
10-25): prefix, expire and the holder id. -/
structure LockFieldM where
  pfx : Option String
  expire : Int
  id : String
deriving DecidableEq, Repr

/-- Model of `RedisLockField.clone` (`lock_field.py` lines 24-25):
`RedisLockField(self.prefix, self.expire, self.id)` — a fresh object built
by the constructor from the same configuration, holder id included. -/
def lockFieldClone (f : LockFieldM) : LockFieldM :=
  { pfx := f.pfx, expire := f.expire, id := f.id }

/-- Model of `_RedisRecordField` (`record.py` lines 14-29) and of the
identically shaped sorted-set and set fields: the bound record type (codec)
plus prefix and expire.  The codec binding is carried as an opaque value of
type `τ`. -/
structure RecFieldM (τ : Type) where
  record_type : τ
  pfx : Option String
  expire : Option Int
deriving DecidableEq, Repr

/-- Model of `_RedisRecordField.clone` (`record.py` lines 28-29):
`self.__class__(self.record_type, self.prefix, self.expire)`. -/
def recordFieldClone {τ : Type} (f : RecFieldM τ) : RecFieldM τ :=
  { record_type := f.record_type, pfx := f.pfx, expire := f.expire }

/-- Model of `_RedisSetField.clone` (`set.py` lines 28-29) and
`RedisSortedSetField.clone` (`sorted_set_field.py` lines 28-29), both
`self.__class__(self.record_type, self.prefix, self.expire)`. -/
def setFieldCloneSetPy {τ : Type} (f : RecFieldM τ) : RecFieldM τ :=
  { record_type := f.record_type, pfx := f.pfx, expire := f.expire }

/-- Model of `_RedisScriptField.clone` (`script.py` lines 78-79):
`_RedisScriptField(self._script_data)` — the new field stores the same
script-data object. -/
def scriptFieldClone (sd : ScriptDataM) : ScriptDataM := sd

/-- The runtime error raised when a `typing` special form such as
`typing.Self` is called as a constructor. -/
inductive PyErr where
  | typeErrorSelfCall
deriving DecidableEq, Repr

/-- Model of `RedisSetField.clone` in `set_field.py` (lines 23-24): the body
is `return Self(self.record_type, self.prefix, self.expire)` where `Self`
is the imported `typing.Self` special form, which is not callable — the
call raises `TypeError` unconditionally, so no clone is ever produced. -/
def setFieldClone {τ : Type} (_f : RecFieldM τ) : Except PyErr (RecFieldM τ) :=
  Except.error PyErr.typeErrorSelfCall

/-! ## Database schema narrowing (`database.py`, `RedisDbMeta` and
`RedisDb.with_records`) -/

/-- A value in a class namespace as `RedisDbMeta.__new__` sees it:
a `RedisRecordFieldBase` instance (a declared field), a `(field, class)`
tuple (what `with_records` inserts), or any other attribute. -/
inductive NsVal (φ γ : Type) where
  | fieldInst (f : φ)
  | pair (f : φ) (c : γ)
  | plainAttr
deriving DecidableEq, Repr

/-- Model of the class `RedisDbMeta.__new__` produces: its `__name__`, its
`__records__` mapping, and the remaining namespace attributes. -/
structure DbClassM (φ γ : Type) where
  clsName : String
  records : List (String × φ × γ)
  attrs : List (String × NsVal φ γ)
deriving DecidableEq, Repr

/-- Model of `RedisDbMeta.__new__` (`database.py` lines 26-41): every
namespace value that is a field instance is moved into `__records__` paired
with its collection class (`classFor` models the isinstance dispatch to
`RedisLock`/`RedisRecord`/`RedisScript`/`RedisSet`); other values — tuples
included — are left in place and not harvested.  The loop variable `name`
shadows the class-name parameter, so the created class's `__name__` is the
last namespace key iterated (the declared name only when the namespace is
empty). -/
def dbMetaNew {φ γ : Type} (declaredName : String) (classFor : φ → γ)
    (ns : List (String × NsVal φ γ)) : DbClassM φ γ :=
  let records := ns.filterMap (fun p =>
    match p.2 with
    | NsVal.fieldInst f => some (p.1, f, classFor f)
    | _ => none)
  let remaining := ns.filter (fun p =>
    match p.2 with
    | NsVal.fieldInst _ => false
    | _ => true)
  let finalName := ((ns.map (fun p => p.1)).getLast?).getD declaredName
  { clsName := finalName, records := records, attrs := remaining }

/-- Model of `RedisDb.with_records` (`database.py` lines 90-96): for each
requested collection name the declared field is cloned and paired with its
collection class as a namespace value, `log` is added, and the class is
rebuilt through the metaclass (`type(cls.__name__, cls.__bases__, ns)`
delegates to `RedisDbMeta` because the bases' metaclass wins).  `none`
models the `KeyError` raised when a requested name is not declared.  The
source builds `set(records)` first; deduplication and set iteration order
do not affect the rebuilt `__records__`, and we keep the given order. -/
def with_records {φ γ : Type} (cls : DbClassM φ γ) (cloneF : φ → φ)
    (classFor : φ → γ) (names : List String) : Option (DbClassM φ γ) :=
  (names.mapM (fun n =>
    ((cls.records.lookup n).map (fun fc => (n, NsVal.pair (cloneF fc.1) fc.2))))).map
    (fun ns => dbMetaNew cls.clsName classFor (ns ++ [("log", NsVal.plainAttr)]))

/-- A concrete database class used to evaluate `with_records`: one declared
record field named `"r"` (field and collection class both modelled as
naturals). -/
def dbDemo : DbClassM Nat Nat :=
  dbMetaNew "DemoDb" (fun _ => 7)
    [("__module__", NsVal.plainAttr), ("r", NsVal.fieldInst 3)]

/-! ## Theorems -/

/-- C8: `full_key` is a pure deterministic function of the prefix and the
key (two descriptors with equal prefixes give equal outputs; the model is a
pure function, so no state changes), and `full_keys` is the finite,
order-preserving, elementwise image of `full_key` over the input keys. -/
theorem fullkey_pure_fullkeys_elementwise (f g : RecordFieldBase)
    (keys : List String) (k : String) (hpfx : f.pfx = g.pfx) :
    full_key f k = full_key g k ∧
    full_keys f keys = keys.map (full_key f) ∧
    (full_keys f keys).length = keys.length ∧
    ∀ i : Nat, (full_keys f keys)[i]? = (keys[i]?).map (full_key f) := by
  refine ⟨?_, rfl, by simp [full_keys], ?_⟩
  · simp [full_key, hpfx]
  · intro i
    simp [full_keys]

/-- Witness for C8 at concrete inputs: two descriptors with prefix `"p:"`
agree on key `"k"`, and `full_keys` maps elementwise. -/
theorem fullkey_pure_fullkeys_elementwise_witness :
    full_key ⟨some "p:", none⟩ "k" = full_key ⟨some "p:", some (10 : Int)⟩ "k" ∧
    full_keys ⟨some "p:", none⟩ ["a", "b"] = ["a", "b"].map (full_key ⟨some "p:", none⟩) ∧
    (full_keys ⟨some "p:", none⟩ ["a", "b"]).length = (["a", "b"] : List String).length ∧
    ∀ i : Nat, (full_keys ⟨some "p:", none⟩ ["a", "b"])[i]? =
      ((["a", "b"] : List String)[i]?).map (full_key ⟨some "p:", none⟩) :=
  fullkey_pure_fullkeys_elementwise ⟨some "p:", none⟩ ⟨some "p:", some (10 : Int)⟩
    ["a", "b"] "k" rfl

/-- C3: `RedisScript.__call__` issues `evalsha` by digest first with the
declared key count equal to the length of the keys and all keys followed by
all args as parameters; it issues `eval` by full source, with the same
count and parameters, exactly when the digest attempt fails with
`NoScriptError`, returning that second attempt's result; any other error of
the digest attempt (and any success) is returned unchanged with no second
command. -/
theorem scriptCall_cache_then_fallback {α : Type} (sf : ScriptFieldM)
    (keys args : List String) (shaResp srcResp : Except RedisErr α) :
    ((scriptCall sf keys args shaResp srcResp).2).head? =
      some (SCmd.evalsha sf.code_sha1 keys.length (keys ++ args)) ∧
    ((scriptCall sf keys args shaResp srcResp).2 =
        [SCmd.evalsha sf.code_sha1 keys.length (keys ++ args),
         SCmd.evalSrc sf.code keys.length (keys ++ args)] ↔
      shaResp = Except.error RedisErr.noScript) ∧
    (shaResp = Except.error RedisErr.noScript →
      (scriptCall sf keys args shaResp srcResp).1 = srcResp) ∧
    (∀ e, e ≠ RedisErr.noScript → shaResp = Except.error e →
      (scriptCall sf keys args shaResp srcResp).1 = Except.error e ∧
      (scriptCall sf keys args shaResp srcResp).2 =
        [SCmd.evalsha sf.code_sha1 keys.length (keys ++ args)]) ∧
    (∀ r, shaResp = Except.ok r →
      (scriptCall sf keys args shaResp srcResp).1 = Except.ok r ∧
      (scriptCall sf keys args shaResp srcResp).2 =
        [SCmd.evalsha sf.code_sha1 keys.length (keys ++ args)]) := by
  cases shaResp with
  | ok r => simp [scriptCall]
  | error e =>
    cases e with
    | noScript =>
      simp [scriptCall]
      intro e he h
      exact he h.symm
    | other m => simp [scriptCall]

/-- Witness for C3: a concrete call where the digest attempt reports
`NoScriptError` falls back to the source attempt and returns its result,
with the command trace showing both attempts carrying key count 2 and the
keys followed by the args. -/
theorem scriptCall_cache_then_fallback_witness :
    (scriptCall ⟨"src", "sha"⟩ ["k1", "k2"] ["a"]
        (Except.error RedisErr.noScript) (Except.ok (7 : Nat))).1 = Except.ok 7 ∧
    (scriptCall ⟨"src", "sha"⟩ ["k1", "k2"] ["a"]
        (Except.error RedisErr.noScript) (Except.ok (7 : Nat))).2 =
      [SCmd.evalsha "sha" 2 ["k1", "k2", "a"],
       SCmd.evalSrc "src" 2 ["k1", "k2", "a"]] :=
  ⟨(scriptCall_cache_then_fallback ⟨"src", "sha"⟩ ["k1", "k2"] ["a"]
      (Except.error RedisErr.noScript) (Except.ok 7)).2.2.1 rfl,
   (scriptCall_cache_then_fallback ⟨"src", "sha"⟩ ["k1", "k2"] ["a"]
      (Except.error RedisErr.noScript) (Except.ok 7)).2.1.mpr rfl⟩

/-- C6: the digest is a definition-time content hash for a class-body
declaration (via `ScriptDataMeta`) and for `script.py`'s `from_data`, and
identical bodies give identical digests; but `script_field.py`'s
`from_data` builds the class with plain `type` over bases `(object,)`,
bypassing `ScriptDataMeta`, so the produced class carries no `code_sha1`
attribute at all — evaluated here at the failing input `"return 1"`. -/
theorem scriptDigest_fromdata_missing :
    (from_data_script_field "return 1").sha1Attr = none ∧
    (∀ hash : String → String,
      (scriptDataMetaNew hash "return 1").sha1Attr = some (hash "return 1")) ∧
    (∀ (hash : String → String) (src : String),
      (from_data_script hash src).sha1Attr = some (hash src) ∧
      (from_data_script hash src).code = src) ∧
    (∀ (hash : String → String) (src : String),
      (scriptDataMetaNew hash src).sha1Attr = (from_data_script hash src).sha1Attr) :=
  ⟨rfl, fun _ => rfl, fun _ _ => ⟨rfl, rfl⟩, fun _ _ => rfl⟩

/-- C4: for a key list and a data list of differing lengths,
`RedisRecord.store` raises the length-mismatch error and issues no write
command; with equal lengths it issues one write per position, pairing the
full key at each index with the dump of the data element at the same
index. -/
theorem recordStore_length_precondition {α β : Type} (f : RecordFieldBase)
    (dump : α → β) (ks : List String) (ds : List α) (upsert : Bool) :
    (ks.length ≠ ds.length →
      recordStore f dump (KeyArg.many ks) (DataArg.many ds) upsert =
        Except.error (StoreErr.lengthMismatch ks.length ds.length)) ∧
    (ks.length = ds.length →
      ∀ ws, recordStore f dump (KeyArg.many ks) (DataArg.many ds) upsert = Except.ok ws →
        ws.length = ks.length ∧
        ∀ (i : Nat) (hik : i < ks.length) (hid : i < ds.length),
          ws[i]? = some ⟨full_key f ks[i], WVal.single (dump ds[i]), f.expire,
            if upsert then none else some true⟩) := by
  constructor
  · intro hne
    simp only [recordStore]
    rw [if_neg (by omega)]
  · intro heq ws hws
    simp only [recordStore] at hws
    rw [if_pos heq.symm] at hws
    obtain rfl : ws = ((full_keys f ks).zip (ds.map dump)).map
        (fun p => ⟨p.1, WVal.single p.2, f.expire,
          if upsert then none else some true⟩) := by
      exact (Except.ok.injEq _ _).mp hws.symm
    constructor
    · simp [full_keys, heq]
    · intro i hik hid
      have hzip : ((full_keys f ks).zip (ds.map dump))[i]? =
          some (full_key f ks[i], dump ds[i]) := by
        rw [List.getElem?_zip_eq_some]
        constructor
        · simp [full_keys]
          exact ⟨ks[i], by simp [List.getElem?_eq_getElem hik], rfl⟩
        · simp
          exact ⟨ds[i], by simp [List.getElem?_eq_getElem hid], rfl⟩
      simp [List.getElem?_map, hzip]

/-- Witness for C4: concretely, `keys=["a","b"]` with a single-element data
list fails with the length-mismatch error, and with two data elements the
two writes pair positions. -/
theorem recordStore_length_precondition_witness :
    recordStore ⟨some "p:", none⟩ (fun n : Nat => n + 1) (KeyArg.many ["a", "b"])
        (DataArg.many [1]) true =
      Except.error (StoreErr.lengthMismatch 2 1) ∧
    ∀ ws, recordStore ⟨some "p:", none⟩ (fun n : Nat => n + 1)
        (KeyArg.many ["a", "b"]) (DataArg.many [1, 5]) true = Except.ok ws →
      ws.length = 2 ∧
      ∀ (i : Nat) (hik : i < (["a", "b"] : List String).length)
          (hid : i < ([1, 5] : List Nat).length),
        ws[i]? = some ⟨full_key ⟨some "p:", none⟩ (["a", "b"] : List String)[i],
          WVal.single ((([1, 5] : List Nat)[i]) + 1), none, none⟩ :=
  ⟨(recordStore_length_precondition ⟨some "p:", none⟩ (fun n : Nat => n + 1)
      ["a", "b"] [1] true).1 (by decide),
   fun ws hws => by
     have h := (recordStore_length_precondition ⟨some "p:", none⟩
       (fun n : Nat => n + 1) ["a", "b"] [1, 5] true).2 rfl ws hws
     exact ⟨h.1, fun i hik hid => h.2 i hik hid⟩⟩

/-- C5: on a sharded database, routing by a non-integer hashable key is a
pure function of the key (the same index on every call) and lands in
`[0, N)` whenever `N ≥ 1`; an integer key is used directly as the index and
passes exactly when it is in range, failing the range assertion otherwise;
and the shard selector on an unsharded database fails with the usage
error. -/
theorem dbGetItem_routing {κ : Type} (db : RedisDbRouter κ) (k : κ) (i : Int)
    (hsh : db.sharded = true) (hn : 1 ≤ db.nItems) :
    (∃ n : Nat, dbGetItem db (DbKeyArg.hashKey k) = Except.ok n ∧ n < db.nItems) ∧
    (∀ n1 n2 : Nat, dbGetItem db (DbKeyArg.hashKey k) = Except.ok n1 →
      dbGetItem db (DbKeyArg.hashKey k) = Except.ok n2 → n1 = n2) ∧
    (0 ≤ i → i < (db.nItems : Int) →
      dbGetItem db (DbKeyArg.intKey i) = Except.ok i.toNat) ∧
    ((i < 0 ∨ (db.nItems : Int) ≤ i) →
      dbGetItem db (DbKeyArg.intKey i) = Except.error DbErr.assertFail) ∧
    (∀ (db2 : RedisDbRouter κ) (key : DbKeyArg κ), db2.sharded = false →
      dbGetItem db2 key = Except.error DbErr.usage) := by
  have hpos : (0 : Int) < (db.nItems : Int) := by exact_mod_cast hn
  refine ⟨?_, ?_, ?_, ?_, ?_⟩
  · have h0 : 0 ≤ db.hashF k % (db.nItems : Int) := Int.emod_nonneg _ (by omega)
    have h1 : db.hashF k % (db.nItems : Int) < (db.nItems : Int) :=
      Int.emod_lt_of_pos _ hpos
    refine ⟨(db.hashF k % (db.nItems : Int)).toNat, ?_, by omega⟩
    simp only [dbGetItem, hsh]
    rw [if_neg (by simp), if_pos ⟨h0, h1⟩]
  · intro n1 n2 e1 e2
    exact Except.ok.inj (e1.symm.trans e2)
  · intro hi0 hi1
    simp only [dbGetItem, hsh]
    rw [if_neg (by simp), if_pos ⟨hi0, hi1⟩]
  · intro hout
    simp only [dbGetItem, hsh]
    rw [if_neg (by simp), if_neg (by omega)]
  · intro db2 key h2
    simp [dbGetItem, h2]

/-- Witness for C5 on a concrete router with 3 shards and the fixed hash
`-7`: the hashed route is in `[0, 3)`, integer key 1 routes to shard 1,
integer key 5 fails the range assertion, and the unsharded selector fails
with the usage error. -/
theorem dbGetItem_routing_witness :
    (∃ n : Nat, dbGetItem ⟨true, 3, fun _ : Nat => (-7 : Int)⟩
        (DbKeyArg.hashKey 0) = Except.ok n ∧ n < 3) ∧
    dbGetItem ⟨true, 3, fun _ : Nat => (-7 : Int)⟩ (DbKeyArg.intKey 1) =
      Except.ok 1 ∧
    dbGetItem ⟨true, 3, fun _ : Nat => (-7 : Int)⟩ (DbKeyArg.intKey 5) =
      Except.error DbErr.assertFail ∧
    dbGetItem ⟨false, 3, fun _ : Nat => (-7 : Int)⟩ (DbKeyArg.intKey 1) =
      Except.error DbErr.usage :=
  ⟨(dbGetItem_routing ⟨true, 3, fun _ : Nat => (-7 : Int)⟩ 0 1 rfl
      (by norm_num)).1,
   (dbGetItem_routing ⟨true, 3, fun _ : Nat => (-7 : Int)⟩ 0 1 rfl
      (by norm_num)).2.2.1 (by norm_num) (by norm_num),
   (dbGetItem_routing ⟨true, 3, fun _ : Nat => (-7 : Int)⟩ 0 5 rfl
      (by norm_num)).2.2.2.1 (Or.inr (by norm_num)),
   (dbGetItem_routing ⟨true, 3, fun _ : Nat => (-7 : Int)⟩ 0 1 rfl
      (by norm_num)).2.2.2.2 ⟨false, 3, fun _ : Nat => (-7 : Int)⟩
      (DbKeyArg.intKey 1) rfl⟩

/-- Helper for C1: while the lock key is held, any run of events containing
no release and no expiry leaves the key held by the same holder and makes
every acquire attempt observe busy. -/
theorem lock_held_all_busy (v : String) (evs : List LockEv)
    (hno : ∀ e ∈ evs, e ≠ LockEv.rel ∧ e ≠ LockEv.exp) :
    runEv (some v) evs = some v ∧ ∀ b ∈ obsEv (some v) evs, b = false := by
  induction evs with
  | nil => simp [runEv, obsEv]
  | cons e es ih =>
    have he := hno e (List.mem_cons_self e es)
    cases e with
    | acq id =>
      have hrest := ih (fun x hx => hno x (List.mem_cons_of_mem _ hx))
      constructor
      · simpa [runEv, applyEv, setNX] using hrest.1
      · intro b hb
        simp only [obsEv, applyEv, setNX] at hb
        rcases List.mem_cons.mp hb with h | h
        · exact h
        · exact hrest.2 b h
    | rel => exact absurd rfl he.1
    | exp => exact absurd rfl he.2

/-- C1: the lock key leaves `FREE` only through the atomic `SET NX` step,
which succeeds exactly when the key is unset and then installs the
caller's own holder id (so an acquire reports success iff its own step made
the FREE-to-HELD transition); once held, every further acquire attempt in
any interleaving observes busy as long as no release or lease expiry
occurs, and release and expiry are the transitions returning the key to
`FREE`. -/
theorem lock_mutual_exclusion (h : String) (evs : List LockEv)
    (hno : ∀ e ∈ evs, e ≠ LockEv.rel ∧ e ≠ LockEv.exp) :
    (∀ (st : Option String) (id : String), (setNX st id).2 = true ↔ st = none) ∧
    (∀ (st : Option String) (id : String),
      (setNX st id).2 = true → (setNX st id).1 = some id) ∧
    runEv (some h) evs = some h ∧
    (∀ b ∈ obsEv (some h) evs, b = false) ∧
    applyEv (some h) LockEv.rel = none ∧ applyEv (some h) LockEv.exp = none := by
  refine ⟨?_, ?_, (lock_held_all_busy h evs hno).1,
    (lock_held_all_busy h evs hno).2, rfl, rfl⟩
  · intro st id
    cases st <;> simp [setNX]
  · intro st id hsucc
    cases st with
    | none => rfl
    | some v => simp [setNX] at hsucc

/-- Witness for C1: holder `"A"` holds the key; two later acquire attempts
by `"B"` and `"C"` (no release or expiry in between) both observe busy and
leave the key held by `"A"`. -/
theorem lock_mutual_exclusion_witness :
    runEv (some "A") [LockEv.acq "B", LockEv.acq "C"] = some "A" ∧
    ∀ b ∈ obsEv (some "A") [LockEv.acq "B", LockEv.acq "C"], b = false :=
  ⟨(lock_mutual_exclusion "A" [LockEv.acq "B", LockEv.acq "C"]
      (by decide)).2.2.1,
   (lock_mutual_exclusion "A" [LockEv.acq "B", LockEv.acq "C"]
      (by decide)).2.2.2.1⟩

/-- C2 counterexample: releasing a lock whose key is unset (already expired
or deleted) raises: `UnlockScript` returns 1 and `release` raises
`RedisLockError('Lock ... is not acquired')`, refuting the claim that this
case only logs a warning and does not raise. -/
theorem release_unset_raises :
    (lockRelease false "A" ⟨none, []⟩).2 = Except.error RelErr.notAcquired := rfl

/-- C2 amended: for a handle that has not timed out, release when the key
is unset or held by a different holder id raises `RedisLockError` and
leaves the store untouched (in particular the key is not deleted); the key
is deleted exactly when it holds this handle's own holder id, and then no
error is raised; a timed-out handle's release only clears the signal and
never raises. -/
theorem release_non_owner_raises (id : String) (st : LockStore) :
    (st.lockVal ≠ some id →
      (lockRelease false id st).2 = Except.error RelErr.notAcquired ∧
      (lockRelease false id st).1 = st) ∧
    (st.lockVal = some id →
      (lockRelease false id st).1.lockVal = none ∧
      (lockRelease false id st).2 = Except.ok ()) ∧
    ((lockRelease true id st).2 = Except.ok () ∧
      (lockRelease true id st).1.lockVal = st.lockVal) := by
  refine ⟨fun hne => ?_, fun heq => ?_, ?_⟩
  · simp [lockRelease, unlock_script, hne]
  · simp [lockRelease, unlock_script, heq, delete_signal]
  · simp [lockRelease, delete_signal]

/-- Witness for C2's amended statement: releasing holder `"A"`'s handle
while `"B"` holds the key raises and leaves the key and store untouched;
releasing while `"A"` holds the key deletes it. -/
theorem release_non_owner_raises_witness :
    (lockRelease false "A" ⟨some "B", []⟩).2 = Except.error RelErr.notAcquired ∧
    (lockRelease false "A" ⟨some "B", []⟩).1 = ⟨some "B", []⟩ ∧
    (lockRelease false "A" ⟨some "A", []⟩).1.lockVal = none :=
  ⟨((release_non_owner_raises "A" ⟨some "B", []⟩).1 (by decide)).1,
   ((release_non_owner_raises "A" ⟨some "B", []⟩).1 (by decide)).2,
   ((release_non_owner_raises "A" ⟨some "A", []⟩).2.1 rfl).1⟩

/-- C10: when the lock key currently stores this handle's own holder id,
`acquire` raises `RedisLockError('Already acquired from this Lock
instance.')` right after the owner pre-check's `get`, issuing no `SET NX`
attempt; the check compares only holder ids, so it applies equally when an
operator-supplied fixed id is shared across handles. -/
theorem acquire_not_reentrant (id : String) (expire : Int) (blocking : Bool)
    (timeout : Option Int) :
    (acquireStep id expire blocking timeout (some id)).1 =
      Except.error AcqErr.alreadyAcquired ∧
    (acquireStep id expire blocking timeout (some id)).2 = [LockCmd.getK] ∧
    ∀ x, LockCmd.setnxK x ∉ (acquireStep id expire blocking timeout (some id)).2 := by
  refine ⟨?_, ?_, ?_⟩ <;> simp [acquireStep]

/-- C7: the lock, record, sorted-set (`sorted_set_field.py`), set
(`set.py`) and script field clones rebuild the same configuration — holder
id included for locks, shared codec/script binding included — but
`RedisSetField.clone` in `set_field.py` calls the non-callable
`typing.Self` as a constructor and raises `TypeError` instead of returning
a clone, evaluated here at a concrete set field. -/
theorem clone_setfield_raises :
    setFieldClone (⟨0, some "p", some 10⟩ : RecFieldM Nat) =
      Except.error PyErr.typeErrorSelfCall ∧
    (∀ f : LockFieldM, lockFieldClone f = f) ∧
    (∀ (τ : Type) (f : RecFieldM τ), recordFieldClone f = f ∧ setFieldCloneSetPy f = f) ∧
    (∀ sd : ScriptDataM, scriptFieldClone sd = sd) :=
  ⟨rfl, fun _ => rfl, fun _ _ => ⟨rfl, rfl⟩, fun _ => rfl⟩

/-- C9: narrowing a database class that declares exactly the record `"r"`
to the subset `["r"]` produces a class whose `__records__` is empty — the
namespace holds `(clone, collection-class)` tuples, which
`RedisDbMeta.__new__` does not recognise as field instances — so starting
the narrowed database binds no collections, refuting the claim that the
declared record set is exactly the requested subset. -/
theorem with_records_records_empty :
    dbDemo.records = [("r", 3, 7)] ∧
    (with_records dbDemo (fun f => f) (fun _ => 7) ["r"]).map
      (fun c => c.records) = some [] ∧
    (with_records dbDemo (fun f => f) (fun _ => 7) ["r"]).map
      (fun c => c.attrs) =
      some [("r", NsVal.pair 3 7), ("log", NsVal.plainAttr)] := by
  refine ⟨rfl, ?_, ?_⟩ <;> rfl
